import Mathlib

/-!
Shallow embedding of the data-aggregation core of a pandas-based mortality
dashboard (files `src/data_processing/data_loader.py`, `src/callbacks/callbacks.py`,
`src/utils/utils.py`, `src/app.py`).

DataFrames are modelled as Lean lists of rows.  The pandas operations used by
the source are modelled as follows:

* `merge(..., how='left')` on a key column: `leftMerge` — each left row is
  paired with every matching right row, or with `none` when no right row
  matches (pandas emits NaN for the right-hand columns in that case).
* `groupby(col).size().reset_index()` on a plain column: `groupbyCount` —
  one row per distinct key actually present, carrying its multiplicity.
  pandas drops rows whose group key is NaN (the `dropna=True` default);
  `groupbyCountDropNone` models that for optional keys.  The order of the
  group rows is irrelevant to every property proved in this file, so the
  distinct keys are taken via `List.dedup`; where the source explicitly
  sorts (`sort_values`) the sort is modelled by `sortValues`.
* `groupby` on a *categorical* column (the output of `pd.cut`): pandas with
  its default `observed=False` emits one row for every category of the
  dtype, including zero-count categories; `process_data_for_age_histogram`
  models this by mapping over the fixed label list.
* `head(n)`: `List.take n`.
* `isin(xs)`: decidable list membership.
* Python `dict` literal lookup: association-list lookup (`dictLookup`); the
  tables inverted in the callbacks are duplicate-free, so front-to-back
  search agrees with Python's last-write-wins dict semantics.  Subscripting
  a missing key raises `KeyError`; the translation functions and the
  callbacks are therefore `Option`-valued, `none` modelling the raised
  exception propagating out of the callback.

Numeric CSV columns that can be missing (the raw age-group value) are
modelled as `Option Int`; the other columns used by the claims are total.
-/

namespace Mortality

/-! ### Generic list-level models of the pandas primitives -/

/-- Number of occurrences of the key `k` in the key list `ks`. -/
def countKey [DecidableEq α] (ks : List α) (k : α) : Nat :=
  ks.countP (fun y => decide (y = k))

/-- `groupby(col).size().reset_index()` over a non-null key column: one output
row per distinct key present, with the key's multiplicity. -/
def groupbyCount [DecidableEq α] (ks : List α) : List (α × Nat) :=
  ks.dedup.map (fun k => (k, countKey ks k))

/-- `groupby` over a possibly-null key column: pandas drops NaN keys
(`dropna=True` default) before grouping. -/
def groupbyCountDropNone [DecidableEq α] (ks : List (Option α)) : List (α × Nat) :=
  groupbyCount (ks.filterMap id)

/-- `merge(..., how='left')`: each left row is paired with every matching
right row, or with `none` when the key has no match (pandas: NaN columns). -/
def leftMerge (df : List α) (tbl : List β) (keyEq : α → β → Bool) :
    List (α × Option β) :=
  df.flatMap (fun r =>
    let ms := tbl.filter (keyEq r)
    if ms.isEmpty then [(r, none)] else ms.map (fun b => (r, some b)))

/-- Python `dict` lookup on an association list (`none` = `KeyError`). -/
def dictLookup [DecidableEq κ] (t : List (κ × α)) (k : κ) : Option α :=
  (t.find? (fun p => decide (p.1 = k))).map (fun p => p.2)

/-- Insert into a list sorted by the Boolean comparison `le`. -/
def insertSorted (le : α → α → Bool) (x : α) : List α → List α
  | [] => [x]
  | y :: ys => if le x y then x :: y :: ys else y :: insertSorted le x ys

/-- `DataFrame.sort_values`, modelled as an insertion sort by the Boolean
comparison `le` (the claims never depend on the order of tied rows). -/
def sortValues (le : α → α → Bool) : List α → List α
  | [] => []
  | x :: xs => insertSorted le x (sortValues le xs)

/-! ### Data model (§3 of the source's data files) -/

/-- One row of `NoFetal2019.csv` restricted to the columns the aggregation
core reads: `COD_DANE`, `MES`, `COD_MUERTE`, `MANERA_MUERTE`, `GRUPO_EDAD1`,
`SEXO`. -/
structure MortalityRecord where
  cod_dane : String
  mes : Nat
  cod_muerte : String
  manera_muerte : String
  grupo_edad1 : Option Int
  sexo : Nat
deriving DecidableEq

/-- One row of `Divipola.csv`: `COD_DANE`, `COD_DEPARTAMENTO`,
`DEPARTAMENTO`, `MUNICIPIO`. -/
structure DivisionEntry where
  cod_dane : String
  cod_departamento : String
  departamento : String
  municipio : String
deriving DecidableEq

/-- One row of `CodigosDeMuerte.csv`: the four-character ICD-10 code column
and its description column. -/
structure CauseCode where
  codigo_cie10 : String
  descripcion : String
deriving DecidableEq

/-- `MONTH_NAMES` from `src/utils/utils.py`. -/
def MONTH_NAMES : List (Nat × String) :=
  [(1, "Enero"), (2, "Febrero"), (3, "Marzo"), (4, "Abril"), (5, "Mayo"),
   (6, "Junio"), (7, "Julio"), (8, "Agosto"), (9, "Septiembre"),
   (10, "Octubre"), (11, "Noviembre"), (12, "Diciembre")]

/-- `gender_mapping = {1: 'Masculino', 2: 'Femenino', 3: 'Indeterminado'}`
from `src/app.py` (the same literal appears in
`process_data_for_gender_department`). -/
def gender_mapping : List (Nat × String) :=
  [(1, "Masculino"), (2, "Femenino"), (3, "Indeterminado")]

/-- The key predicate of every merge with `Divipola` (`on='COD_DANE'`). -/
def divKeyEq (r : MortalityRecord) (d : DivisionEntry) : Bool :=
  decide (d.cod_dane = r.cod_dane)

/-- The key predicate of the merge with the cause-code table
(`left_on='COD_MUERTE'`, `right_on='Código de la CIE-10 cuatro caracteres'`). -/
def causeKeyEq (r : MortalityRecord) (c : CauseCode) : Bool :=
  decide (c.codigo_cie10 = r.cod_muerte)

/-! ### The aggregation pipelines of `data_loader.py` -/

/-- `process_data_for_department_map`: left-merge with Divipola on
`COD_DANE`, group by `DEPARTAMENTO`, count.  Output rows are
(`DEPARTAMENTO`, `TOTAL_DEATHS`). -/
def process_data_for_department_map (df_mortality : List MortalityRecord)
    (df_divipola : List DivisionEntry) : List (String × Nat) :=
  let merged := leftMerge df_mortality df_divipola divKeyEq
  groupbyCountDropNone (merged.map (fun p => p.2.map (fun d => d.departamento)))

/-- `process_data_for_monthly_deaths`: group by `MES`, count, sort ascending
by `MES`, attach `MONTH_NAME` via the `MONTH_NAMES` dict (`Series.map`, which
yields NaN — here `none` — outside the table).  Output rows are
(`MES`, `TOTAL_DEATHS`, `MONTH_NAME`). -/
def process_data_for_monthly_deaths (df_mortality : List MortalityRecord) :
    List (Nat × Nat × Option String) :=
  let deaths_by_month := groupbyCount (df_mortality.map (fun r => r.mes))
  let sorted := sortValues (fun a b => decide (a.1 ≤ b.1)) deaths_by_month
  sorted.map (fun p => (p.1, p.2, dictLookup MONTH_NAMES p.1))

/-- `process_data_for_violent_cities`: keep rows with
`MANERA_MUERTE == 'Homicidio'`; if a non-empty `violent_types` list is given,
further keep rows whose `COD_MUERTE` is in it; left-merge with Divipola,
group by `MUNICIPIO`, count, sort descending by count, `head(5)`.
The source function also takes an unused `df_codes` parameter, omitted here.
Output rows are (`MUNICIPIO`, `HOMICIDES`). -/
def process_data_for_violent_cities (df_mortality : List MortalityRecord)
    (df_divipola : List DivisionEntry) (violent_types : Option (List String)) :
    List (String × Nat) :=
  let homicides := df_mortality.filter (fun r => decide (r.manera_muerte = "Homicidio"))
  let homicides := match violent_types with
    | some ts =>
        if ts.length > 0 then
          homicides.filter (fun r => decide (r.cod_muerte ∈ ts))
        else homicides
    | none => homicides
  let merged := leftMerge homicides df_divipola divKeyEq
  let homicides_by_city :=
    groupbyCountDropNone (merged.map (fun p => p.2.map (fun d => d.municipio)))
  (sortValues (fun a b => decide (b.2 ≤ a.2)) homicides_by_city).take 5

/-- `process_data_for_lowest_mortality_cities`: left-merge with Divipola,
group by `MUNICIPIO`, count, keep counts `> 0`, sort ascending by count,
`head(10)`.  Output rows are (`MUNICIPIO`, `DEATHS`). -/
def process_data_for_lowest_mortality_cities (df_mortality : List MortalityRecord)
    (df_divipola : List DivisionEntry) : List (String × Nat) :=
  let merged := leftMerge df_mortality df_divipola divKeyEq
  let deaths_by_city :=
    groupbyCountDropNone (merged.map (fun p => p.2.map (fun d => d.municipio)))
  let positive := deaths_by_city.filter (fun p => decide (0 < p.2))
  (sortValues (fun a b => decide (a.2 ≤ b.2)) positive).take 10

/-- Output row of `process_data_for_top_causes` after the final `rename`:
the columns are relabelled to the display names `Código`, `Descripción`,
`Total de Casos`. -/
structure TopCauseRow where
  codigo : String
  descripcion : String
  total_de_casos : Nat
deriving DecidableEq

/-- `process_data_for_top_causes`: left-merge with the cause-code table on
the cause code, group by the (`COD_MUERTE`, description) pair, count, sort
descending, `head(10)`, rename columns to the display labels.  Grouping by a
pair one of whose components is NaN drops the row (pandas `dropna=True`). -/
def process_data_for_top_causes (df_mortality : List MortalityRecord)
    (df_codes : List CauseCode) : List TopCauseRow :=
  let merged := leftMerge df_mortality df_codes causeKeyEq
  let keys := merged.map (fun p => p.2.map (fun c => (p.1.cod_muerte, c.descripcion)))
  let deaths_by_cause := groupbyCountDropNone keys
  let top := (sortValues (fun a b => decide (b.2 ≤ a.2)) deaths_by_cause).take 10
  top.map (fun p => ⟨p.1.1, p.1.2, p.2⟩)

/-- `age_bins` from `process_data_for_age_histogram`. -/
def age_bins : List Int :=
  [0, 5, 10, 15, 20, 25, 30, 35, 40, 45, 50, 55, 60, 65, 70, 75, 80, 85, 90, 95, 100, 150]

/-- `age_labels` from `process_data_for_age_histogram`. -/
def age_labels : List String :=
  ["0-4", "5-9", "10-14", "15-19", "20-24", "25-29", "30-34", "35-39", "40-44",
   "45-49", "50-54", "55-59", "60-64", "65-69", "70-74", "75-79", "80-84",
   "85-89", "90-94", "95-99", "100+"]

/-- The bins of `pd.cut(..., bins=age_bins, labels=age_labels, right=False)`:
consecutive pairs of `age_bins` paired with their labels. -/
def ageBinTable : List ((Int × Int) × String) :=
  (age_bins.zip (age_bins.drop 1)).zip age_labels

/-- Membership of a (non-NaN) value in one of the half-open `[low, high)`
bins; `none` when the value lies outside every bin (pandas: the cut yields
NaN and the row is dropped from the grouping). -/
def findBin (x : Int) : List ((Int × Int) × String) → Option String
  | [] => none
  | e :: es => if e.1.1 ≤ x ∧ x < e.1.2 then some e.2 else findBin x es

/-- `pd.cut` of a single age value against the fixed bins. -/
def cutAge (x : Int) : Option String := findBin x ageBinTable

/-- The `AGE_GROUP` value of one record (`none` = NaN: missing age or age
outside every bin). -/
def ageGroupOf (r : MortalityRecord) : Option String :=
  r.grupo_edad1.bind cutAge

/-- `process_data_for_age_histogram`: assign `AGE_GROUP = pd.cut(GRUPO_EDAD1, ...)`
and group by it.  `AGE_GROUP` is a pandas *categorical* column, and
`groupby` with the default `observed=False` emits one row per category — all
21 labels, in category order, including zero-count ones; NaN rows are
dropped from every count.  Output rows are (`AGE_GROUP`, `COUNT`). -/
def process_data_for_age_histogram (df_mortality : List MortalityRecord) :
    List (String × Nat) :=
  let groups := df_mortality.map ageGroupOf
  age_labels.map (fun lab => (lab, groups.countP (fun g => decide (g = some lab))))

/-- `process_data_for_gender_department`: left-merge with Divipola on
`COD_DANE`, map `SEXO` through `gender_mapping` (codes outside the table
become NaN), group by the (`DEPARTAMENTO`, `GENDER`) pair — rows with NaN in
either component are dropped — and count.  Output rows are
((`DEPARTAMENTO`, `GENDER`), `COUNT`). -/
def process_data_for_gender_department (df_mortality : List MortalityRecord)
    (df_divipola : List DivisionEntry) : List ((String × String) × Nat) :=
  let merged := leftMerge df_mortality df_divipola divKeyEq
  let keys := merged.map (fun p =>
    match p.2.map (fun d => d.departamento), dictLookup gender_mapping p.1.sexo with
    | some dept, some g => some (dept, g)
    | _, _ => none)
  groupbyCountDropNone keys

/-! ### Filter translation and the callbacks of `callbacks.py`

Each callback receives, per filter dimension, either `none` (Dash passes
`None` before any selection) or `some sel`.  The source guards every filter
application with `if selected and len(selected) > 0:`, so `none` and the
empty list both skip the dimension.  The month and gender translations
subscript an inverted dict and can raise `KeyError`; the callbacks are
`Option`-valued, `none` modelling the exception. -/

/-- `month_to_num = {v: k for k, v in MONTH_NAMES.items()}`. -/
def month_to_num : List (String × Nat) :=
  MONTH_NAMES.map (fun p => (p.2, p.1))

/-- `gender_to_code = {v: k for k, v in gender_mapping.items()}`. -/
def gender_to_code : List (String × Nat) :=
  gender_mapping.map (fun p => (p.2, p.1))

/-- A Python list comprehension whose element expression can raise
`KeyError`: `none` as soon as any element lookup fails. -/
def mapKeyErr (f : α → Option β) : List α → Option (List β)
  | [] => some []
  | a :: as =>
      match f a, mapKeyErr f as with
      | some b, some bs => some (b :: bs)
      | _, _ => none

/-- `[month_to_num[month] for month in selected_months]`
(`none` = `KeyError` on some element). -/
def translateMonths (sel : List String) : Option (List Nat) :=
  mapKeyErr (dictLookup month_to_num) sel

/-- `[gender_to_code[gender] for gender in selected_genders]`. -/
def translateGenders (sel : List String) : Option (List Nat) :=
  mapKeyErr (dictLookup gender_to_code) sel

/-- The manner-of-death filter block shared by `update_map` and
`update_gender_dept_chart`. -/
def mannerFilterStep (sel : Option (List String)) (df : List MortalityRecord) :
    List MortalityRecord :=
  match sel with
  | some ms =>
      if ms.length > 0 then df.filter (fun r => decide (r.manera_muerte ∈ ms)) else df
  | none => df

/-- The month filter block: translate the display names through the inverted
dict, then `isin` on `MES`. -/
def monthFilterStep (sel : Option (List String)) (df : List MortalityRecord) :
    Option (List MortalityRecord) :=
  match sel with
  | some ms =>
      if ms.length > 0 then
        (translateMonths ms).map (fun nums => df.filter (fun r => decide (r.mes ∈ nums)))
      else some df
  | none => some df

/-- The gender filter block: translate the labels through the inverted dict,
then `isin` on `SEXO`. -/
def genderFilterStep (sel : Option (List String)) (df : List MortalityRecord) :
    Option (List MortalityRecord) :=
  match sel with
  | some gs =>
      if gs.length > 0 then
        (translateGenders gs).map (fun cs => df.filter (fun r => decide (r.sexo ∈ cs)))
      else some df
  | none => some df

/-- The department filter block of `update_monthly_chart` and
`update_age_histogram`: merge with Divipola, keep rows whose `DEPARTAMENTO`
is in the selection (`isin` is false on NaN), and continue with the record
columns (the added Divipola columns are never read downstream). -/
def deptFilterStep (sel : Option (List String)) (df_divipola : List DivisionEntry)
    (df : List MortalityRecord) : List MortalityRecord :=
  match sel with
  | some ds =>
      if ds.length > 0 then
        ((leftMerge df df_divipola divKeyEq).filter (fun p =>
            match p.2 with
            | some d => decide (d.departamento ∈ ds)
            | none => false)).map (fun p => p.1)
      else df
  | none => df

/-- `update_map`: manner, month and gender filters, then the department-map
aggregation. -/
def update_map (df_mortality : List MortalityRecord) (df_divipola : List DivisionEntry)
    (selected_manners selected_months selected_genders : Option (List String)) :
    Option (List (String × Nat)) := do
  let df1 := mannerFilterStep selected_manners df_mortality
  let df2 ← monthFilterStep selected_months df1
  let df3 ← genderFilterStep selected_genders df2
  some (process_data_for_department_map df3 df_divipola)

/-- `update_monthly_chart`: department and gender filters, then the monthly
aggregation. -/
def update_monthly_chart (df_mortality : List MortalityRecord)
    (df_divipola : List DivisionEntry)
    (selected_depts selected_genders : Option (List String)) :
    Option (List (Nat × Nat × Option String)) := do
  let df1 := deptFilterStep selected_depts df_divipola df_mortality
  let df2 ← genderFilterStep selected_genders df1
  some (process_data_for_monthly_deaths df2)

/-- `update_age_histogram`: department and gender filters, then the age
aggregation. -/
def update_age_histogram (df_mortality : List MortalityRecord)
    (df_divipola : List DivisionEntry)
    (selected_depts selected_genders : Option (List String)) :
    Option (List (String × Nat)) := do
  let df1 := deptFilterStep selected_depts df_divipola df_mortality
  let df2 ← genderFilterStep selected_genders df1
  some (process_data_for_age_histogram df2)

/-- Python's `desc.split(' - ')[0]`: the longest prefix of `s` that stops at
the first occurrence of `sep`; the whole string when `sep` does not occur. -/
def takeUntilSep (sep : List Char) : List Char → List Char
  | [] => []
  | c :: cs => if sep.isPrefixOf (c :: cs) then [] else c :: takeUntilSep sep cs

/-- `desc.split(' - ')[0]` on strings. -/
def splitFirst (sep : String) (s : String) : String :=
  ⟨takeUntilSep sep.data s.data⟩

/-- The code-extraction loop of `update_violent_cities_chart`:
`selected_codes.append(desc.split(' - ')[0])` for each selected description. -/
def extract_codes (selected_violent_types : List String) : List String :=
  selected_violent_types.map (fun desc => splitFirst " - " desc)

/-- `update_violent_cities_chart`: gender filter, extraction of the cause
codes from the selected descriptions (empty selection contributes an empty
code list), then the violent-cities aggregation. -/
def update_violent_cities_chart (df_mortality : List MortalityRecord)
    (df_divipola : List DivisionEntry)
    (selected_violent_types selected_genders : Option (List String)) :
    Option (List (String × Nat)) := do
  let df1 ← genderFilterStep selected_genders df_mortality
  let selected_codes := match selected_violent_types with
    | some sel => if sel.length > 0 then extract_codes sel else []
    | none => []
  some (process_data_for_violent_cities df1 df_divipola (some selected_codes))

/-- `update_lowest_mortality_chart`: gender filter, then the
lowest-mortality aggregation. -/
def update_lowest_mortality_chart (df_mortality : List MortalityRecord)
    (df_divipola : List DivisionEntry) (selected_genders : Option (List String)) :
    Option (List (String × Nat)) := do
  let df1 ← genderFilterStep selected_genders df_mortality
  some (process_data_for_lowest_mortality_cities df1 df_divipola)

/-- `update_gender_dept_chart`: manner and month filters, then the
gender-by-department aggregation. -/
def update_gender_dept_chart (df_mortality : List MortalityRecord)
    (df_divipola : List DivisionEntry)
    (selected_manners selected_months : Option (List String)) :
    Option (List ((String × String) × Nat)) := do
  let df1 := mannerFilterStep selected_manners df_mortality
  let df2 ← monthFilterStep selected_months df1
  some (process_data_for_gender_department df2 df_divipola)

/-- The division lookup that `leftMerge` with a duplicate-free `Divipola`
table performs per record. -/
def lookupDiv (df_divipola : List DivisionEntry) (c : String) : Option DivisionEntry :=
  (df_divipola.filter (fun d => decide (d.cod_dane = c))).head?

/-- The cause-code lookup that `leftMerge` with a duplicate-free code table
performs per record. -/
def lookupCause (df_codes : List CauseCode) (c : String) : Option CauseCode :=
  (df_codes.filter (fun e => decide (e.codigo_cie10 = c))).head?

/-- The `DEPARTAMENTO` value a record acquires from the Divipola merge
(per-record view of the left merge when the Divipola keys are unique). -/
def deptKey (df_divipola : List DivisionEntry) (r : MortalityRecord) : Option String :=
  (lookupDiv df_divipola r.cod_dane).map (fun d => d.departamento)

/-- The `MUNICIPIO` value a record acquires from the Divipola merge. -/
def muniKey (df_divipola : List DivisionEntry) (r : MortalityRecord) : Option String :=
  (lookupDiv df_divipola r.cod_dane).map (fun d => d.municipio)

/-- The (`COD_MUERTE`, description) group key of `process_data_for_top_causes`
as a per-record lookup (`none` when the code has no match, in which case the
NaN-dropping groupby discards the row). -/
def causeKey (df_codes : List CauseCode) (r : MortalityRecord) : Option (String × String) :=
  (lookupCause df_codes r.cod_muerte).map (fun e => (r.cod_muerte, e.descripcion))

/-- The (`DEPARTAMENTO`, `GENDER`) group key of
`process_data_for_gender_department` as a per-record lookup. -/
def genderDeptKey (df_divipola : List DivisionEntry) (r : MortalityRecord) :
    Option (String × String) :=
  match (lookupDiv df_divipola r.cod_dane).map (fun d => d.departamento),
      dictLookup gender_mapping r.sexo with
  | some dept, some g => some (dept, g)
  | _, _ => none

/-! ### Sample data used by the scenario conjuncts and the witnesses -/

/-- Scenario A division table: `D1` and `D2` belong to department `X`
(municipalities `M1`, `M2`); `D3` is unmapped. -/
def divipolaA : List DivisionEntry :=
  [⟨"D1", "05", "X", "M1"⟩, ⟨"D2", "05", "X", "M2"⟩]

/-- Scenario B division table: only `D1` is mapped (municipality `M1`). -/
def divipolaB : List DivisionEntry := [⟨"D1", "05", "X", "M1"⟩]

/-- A record with the given division code and fixed other columns. -/
def sampleRec (dane : String) : MortalityRecord :=
  ⟨dane, 1, "X950", "Homicidio", some 30, 1⟩

/-- A record with the given manner of death, cause code and division code. -/
def recMCD (manner code dane : String) : MortalityRecord :=
  ⟨dane, 1, code, manner, some 30, 1⟩

/-- A record with the given raw age value. -/
def ageRec (v : Int) : MortalityRecord := ⟨"D1", 1, "X950", "Homicidio", some v, 1⟩

/-- A record with the given month. -/
def monthRec (m : Nat) : MortalityRecord := ⟨"D1", m, "X950", "Homicidio", some 30, 1⟩

/-- Scenario A record set: three records on divisions `D1`, `D2`, `D3`. -/
def dfA : List MortalityRecord := [sampleRec "D1", sampleRec "D2", sampleRec "D3"]

/-- Scenario B record set. -/
def dfB : List MortalityRecord :=
  [recMCD "Homicidio" "X95" "D1", recMCD "Homicidio" "X96" "D1", recMCD "Suicidio" "X95" "D1"]

/-- A small record set with months out of order. -/
def dfM : List MortalityRecord := [monthRec 3, monthRec 1, monthRec 3]

/-- A small cause-code table with unique codes. -/
def codesC : List CauseCode := [⟨"X950", "Agresion con disparo"⟩, ⟨"X70", "Lesion autoinfligida"⟩]

/-- A record set whose cause codes all match `codesC`. -/
def dfC : List MortalityRecord :=
  [recMCD "Homicidio" "X950" "D1", recMCD "Suicidio" "X70" "D1", recMCD "Homicidio" "X950" "D2"]

/-- The age-binning rule as the (amended) specification states it, written
from the spec text for comparison with the code-derived `cutAge`: half-open
width-5 buckets with boundaries `0,5,...,100`, the bucket of `v` being the
label of index `v / 5` for `0 ≤ v < 100`, a terminal bucket labelled
`"100+"` covering `[100, 150)`, and everything else (negative, `≥ 150`)
excluded. -/
def specAgeBucket (v : Int) : Option String :=
  if 0 ≤ v ∧ v < 100 then age_labels.get? (v.toNat / 5)
  else if 100 ≤ v ∧ v < 150 then some "100+"
  else none

/-! ### Generic lemmas about the embedded pandas primitives -/

theorem countKey_pos [DecidableEq α] {ks : List α} {k : α} (h : k ∈ ks) :
    0 < countKey ks k := by
  rw [countKey, List.countP_pos_iff]
  exact ⟨k, h, by simp⟩

theorem mem_groupbyCount [DecidableEq α] {ks : List α} {k : α} {n : Nat} :
    (k, n) ∈ groupbyCount ks ↔ k ∈ ks ∧ n = countKey ks k := by
  constructor
  · intro h
    rcases List.mem_map.mp h with ⟨a, ha, hea⟩
    cases hea
    exact ⟨List.mem_dedup.mp ha, rfl⟩
  · rintro ⟨hk, rfl⟩
    exact List.mem_map.mpr ⟨k, List.mem_dedup.mpr hk, rfl⟩

theorem map_fst_groupbyCount [DecidableEq α] (ks : List α) :
    (groupbyCount ks).map Prod.fst = ks.dedup := by
  simp [groupbyCount, List.map_map, Function.comp_def]

theorem nodup_fst_groupbyCount [DecidableEq α] (ks : List α) :
    ((groupbyCount ks).map Prod.fst).Nodup := by
  rw [map_fst_groupbyCount]
  exact List.nodup_dedup ks

theorem length_groupbyCount [DecidableEq α] (ks : List α) :
    (groupbyCount ks).length = ks.dedup.length := by
  simp [groupbyCount]

theorem countKey_filterMap_id [DecidableEq α] (ks : List (Option α)) (k : α) :
    countKey (ks.filterMap id) k = ks.countP (fun o => decide (o = some k)) := by
  induction ks with
  | nil => rfl
  | cons o os ih =>
    cases o with
    | none => simpa [countKey, List.countP_cons] using ih
    | some a =>
      simp only [List.filterMap_cons, id, countKey, List.countP_cons] at *
      simp [ih]

theorem mem_filterMap_id {ks : List (Option α)} {k : α} :
    k ∈ ks.filterMap id ↔ some k ∈ ks := by
  simp [List.mem_filterMap]

/-- What a group row of a NaN-dropping `groupby` over a derived key column
says: the key is realised by some input row and the count is the number of
input rows realising it (in particular it is positive). -/
theorem mem_groupbyCountDropNone_map [DecidableEq γ] {df : List α} {g : α → Option γ}
    {k : γ} {n : Nat} (h : (k, n) ∈ groupbyCountDropNone (df.map g)) :
    0 < n ∧ n = df.countP (fun r => decide (g r = some k)) ∧ ∃ r ∈ df, g r = some k := by
  rcases mem_groupbyCount.mp h with ⟨hk, rfl⟩
  have hmem : ∃ r ∈ df, g r = some k := by
    have := mem_filterMap_id.mp hk
    simpa using this
  refine ⟨countKey_pos hk, ?_, hmem⟩
  rw [countKey_filterMap_id, List.countP_map]
  rfl

/-- Conversely, every realised key yields a group row carrying its count. -/
theorem realised_mem_groupbyCountDropNone_map [DecidableEq γ] {df : List α}
    {g : α → Option γ} {k : γ} (h : ∃ r ∈ df, g r = some k) :
    (k, df.countP (fun r => decide (g r = some k))) ∈ groupbyCountDropNone (df.map g) := by
  apply mem_groupbyCount.mpr
  constructor
  · exact mem_filterMap_id.mpr (by simpa using h)
  · rw [countKey_filterMap_id, List.countP_map]
    rfl

theorem length_groupbyCountDropNone [DecidableEq α] (ks : List (Option α)) :
    (groupbyCountDropNone ks).length = (ks.filterMap id).dedup.length := by
  simp [groupbyCountDropNone, length_groupbyCount]

/-- A key column with `Nodup` keys matches each probe value at most once. -/
theorem filter_keyEq_length_le_one [DecidableEq κ] (tbl : List β) (key : β → κ)
    (hn : (tbl.map key).Nodup) (c : κ) :
    (tbl.filter (fun b => decide (key b = c))).length ≤ 1 := by
  induction tbl with
  | nil => simp
  | cons b bs ih =>
    simp only [List.map_cons, List.nodup_cons] at hn
    rcases hn with ⟨hb, hn⟩
    by_cases hc : key b = c
    · have hnil : bs.filter (fun b' => decide (key b' = c)) = [] := by
        rw [List.filter_eq_nil_iff]
        intro b' hb'
        simp only [decide_eq_true_eq]
        intro h'
        exact hb (List.mem_map.mpr ⟨b', hb', by rw [h', hc]⟩)
      simp [List.filter_cons, hc, hnil]
    · simp only [List.filter_cons, hc]
      simpa using ih hn

/-- When every probe matches at most one table row, a left merge is the
per-row lookup of the (at most one) matching entry. -/
theorem leftMerge_eq_map (df : List α) (tbl : List β) (keyEq : α → β → Bool)
    (h : ∀ r, (tbl.filter (keyEq r)).length ≤ 1) :
    leftMerge df tbl keyEq = df.map (fun r => (r, (tbl.filter (keyEq r)).head?)) := by
  induction df with
  | nil => rfl
  | cons r rs ih =>
    rw [leftMerge, List.flatMap_cons, ← leftMerge, ih, List.map_cons]
    have h1 := h r
    cases hms : tbl.filter (keyEq r) with
    | nil => simp [hms]
    | cons b bs =>
      cases bs with
      | nil => simp [hms]
      | cons b' bs' => rw [hms] at h1; simp at h1

theorem leftMerge_div_eq (df : List MortalityRecord) (df_divipola : List DivisionEntry)
    (hdiv : (df_divipola.map (fun d => d.cod_dane)).Nodup) :
    leftMerge df df_divipola divKeyEq =
      df.map (fun r => (r, lookupDiv df_divipola r.cod_dane)) := by
  apply leftMerge_eq_map
  intro r
  exact filter_keyEq_length_le_one df_divipola (fun d => d.cod_dane) hdiv r.cod_dane

theorem leftMerge_cause_eq (df : List MortalityRecord) (df_codes : List CauseCode)
    (hcodes : (df_codes.map (fun e => e.codigo_cie10)).Nodup) :
    leftMerge df df_codes causeKeyEq =
      df.map (fun r => (r, lookupCause df_codes r.cod_muerte)) := by
  apply leftMerge_eq_map
  intro r
  exact filter_keyEq_length_le_one df_codes (fun e => e.codigo_cie10) hcodes r.cod_muerte

theorem mem_insertSorted {le : α → α → Bool} {x a : α} {l : List α} :
    a ∈ insertSorted le x l ↔ a = x ∨ a ∈ l := by
  induction l with
  | nil => simp [insertSorted]
  | cons y ys ih =>
    by_cases hxy : le x y
    · simp [insertSorted, hxy]
    · simp only [insertSorted, hxy]
      simp [ih]
      tauto

theorem length_insertSorted (le : α → α → Bool) (x : α) (l : List α) :
    (insertSorted le x l).length = l.length + 1 := by
  induction l with
  | nil => rfl
  | cons y ys ih =>
    by_cases hxy : le x y <;> simp [insertSorted, hxy, ih]

theorem mem_sortValues {le : α → α → Bool} {l : List α} {a : α} :
    a ∈ sortValues le l ↔ a ∈ l := by
  induction l with
  | nil => simp [sortValues]
  | cons x xs ih => simp [sortValues, mem_insertSorted, ih]

theorem length_sortValues (le : α → α → Bool) (l : List α) :
    (sortValues le l).length = l.length := by
  induction l with
  | nil => rfl
  | cons x xs ih => simp [sortValues, length_insertSorted, ih]

theorem pairwise_insertSorted {le : α → α → Bool}
    (htrans : ∀ a b c, le a b = true → le b c = true → le a c = true)
    (htotal : ∀ a b, le a b = true ∨ le b a = true)
    {x : α} {l : List α} (h : l.Pairwise (fun a b => le a b = true)) :
    (insertSorted le x l).Pairwise (fun a b => le a b = true) := by
  induction l with
  | nil => simp [insertSorted]
  | cons y ys ih =>
    rcases List.pairwise_cons.mp h with ⟨hy, hys⟩
    by_cases hxy : le x y
    · rw [insertSorted, if_pos hxy]
      refine List.pairwise_cons.mpr ⟨?_, h⟩
      intro z hz
      rcases List.mem_cons.mp hz with heq | hz
      · rw [heq]; exact hxy
      · exact htrans x y z hxy (hy z hz)
    · rw [insertSorted, if_neg hxy]
      refine List.pairwise_cons.mpr ⟨?_, ih hys⟩
      intro z hz
      rcases mem_insertSorted.mp hz with heq | hz
      · rw [heq]
        rcases htotal x y with hx | hx
        · exact absurd hx hxy
        · exact hx
      · exact hy z hz

theorem pairwise_sortValues {le : α → α → Bool}
    (htrans : ∀ a b c, le a b = true → le b c = true → le a c = true)
    (htotal : ∀ a b, le a b = true ∨ le b a = true) (l : List α) :
    (sortValues le l).Pairwise (fun a b => le a b = true) := by
  induction l with
  | nil => simp [sortValues]
  | cons x xs ih => exact pairwise_insertSorted htrans htotal ih

theorem dictLookup_mem [DecidableEq κ] {t : List (κ × α)} {k : κ} {v : α}
    (h : dictLookup t k = some v) : (k, v) ∈ t := by
  rw [dictLookup, Option.map_eq_some'] at h
  rcases h with ⟨p, hf, hv⟩
  have hm := List.mem_of_find?_eq_some hf
  have hp := List.find?_some hf
  simp only [decide_eq_true_eq] at hp
  cases p
  cases hp
  cases hv
  exact hm

theorem dictLookup_eq_none [DecidableEq κ] {t : List (κ × α)} {k : κ}
    (h : k ∉ t.map Prod.fst) : dictLookup t k = none := by
  have hf : t.find? (fun p => decide (p.1 = k)) = none := by
    rw [List.find?_eq_none]
    intro p hp
    simp only [decide_eq_true_eq]
    intro hk
    exact h (List.mem_map.mpr ⟨p, hp, hk⟩)
  rw [dictLookup, hf]
  rfl

theorem mapKeyErr_isSome {f : α → Option β} {l : List α}
    (h : ∀ a ∈ l, (f a).isSome) : (mapKeyErr f l).isSome := by
  induction l with
  | nil => simp [mapKeyErr]
  | cons a as ih =>
    rcases Option.isSome_iff_exists.mp (h a (by simp)) with ⟨b, hb⟩
    rcases Option.isSome_iff_exists.mp (ih (fun x hx => h x (by simp [hx]))) with ⟨bs, hbs⟩
    simp [mapKeyErr, hb, hbs]

theorem mapKeyErr_eq_none_of_mem {f : α → Option β} {l : List α} {a : α}
    (ha : a ∈ l) (h : f a = none) : mapKeyErr f l = none := by
  induction l with
  | nil => simp at ha
  | cons x xs ih =>
    rcases List.mem_cons.mp ha with heq | hx
    · have hfx : f x = none := by rw [← heq]; exact h
      simp [mapKeyErr, hfx]
    · cases hfx : f x <;> simp [mapKeyErr, hfx, ih hx]

theorem mapKeyErr_roundtrip {f : α → Option β} {g : β → Option α} {l : List α}
    (h : ∀ a ∈ l, ∃ b, f a = some b ∧ g b = some a) :
    ∃ bs, mapKeyErr f l = some bs ∧ bs.map g = l.map some := by
  induction l with
  | nil => exact ⟨[], rfl, rfl⟩
  | cons a as ih =>
    rcases h a (by simp) with ⟨b, hfa, hgb⟩
    rcases ih (fun x hx => h x (by simp [hx])) with ⟨bs, hmap, hback⟩
    exact ⟨b :: bs, by simp [mapKeyErr, hfa, hmap], by simp [hgb, hback]⟩

theorem lookupCause_some {df_codes : List CauseCode} {c : String} {e : CauseCode}
    (h : lookupCause df_codes c = some e) : e ∈ df_codes ∧ e.codigo_cie10 = c := by
  rw [lookupCause] at h
  cases hf : df_codes.filter (fun e => decide (e.codigo_cie10 = c)) with
  | nil => rw [hf] at h; simp at h
  | cons e' es =>
    have hmem : e' ∈ df_codes.filter (fun e => decide (e.codigo_cie10 = c)) := by
      rw [hf]; exact List.mem_cons_self e' es
    rw [hf] at h
    simp only [List.head?_cons, Option.some.injEq] at h
    rw [← h]
    simpa using List.mem_filter.mp hmem

theorem lookupCause_ne_none {df_codes : List CauseCode} {e : CauseCode}
    (he : e ∈ df_codes) : lookupCause df_codes e.codigo_cie10 ≠ none := by
  rw [lookupCause]
  have hmem : e ∈ df_codes.filter (fun x => decide (x.codigo_cie10 = e.codigo_cie10)) :=
    List.mem_filter.mpr ⟨he, by simp⟩
  cases hf : df_codes.filter (fun x => decide (x.codigo_cie10 = e.codigo_cie10)) with
  | nil => rw [hf] at hmem; simp at hmem
  | cons x xs => simp

/-! ### Per-record characterisations of the pipelines (unique reference keys) -/

theorem department_map_eq (df : List MortalityRecord) (dv : List DivisionEntry)
    (hdiv : (dv.map (fun d => d.cod_dane)).Nodup) :
    process_data_for_department_map df dv =
      groupbyCountDropNone (df.map (deptKey dv)) := by
  rw [process_data_for_department_map, leftMerge_div_eq df dv hdiv, List.map_map]
  rfl

theorem monthly_deaths_eq (df : List MortalityRecord) :
    process_data_for_monthly_deaths df =
      (sortValues (fun a b => decide (a.1 ≤ b.1))
        (groupbyCount (df.map (fun r => r.mes)))).map
          (fun p => (p.1, p.2, dictLookup MONTH_NAMES p.1)) := rfl

theorem violent_cities_eq_none (df : List MortalityRecord) (dv : List DivisionEntry)
    (hdiv : (dv.map (fun d => d.cod_dane)).Nodup) :
    process_data_for_violent_cities df dv none =
      (sortValues (fun a b => decide (b.2 ≤ a.2))
        (groupbyCountDropNone
          ((df.filter (fun r => decide (r.manera_muerte = "Homicidio"))).map
            (muniKey dv)))).take 5 := by
  rw [process_data_for_violent_cities, leftMerge_div_eq _ dv hdiv, List.map_map]
  rfl

theorem violent_cities_eq_some (df : List MortalityRecord) (dv : List DivisionEntry)
    (ts : List String) (hdiv : (dv.map (fun d => d.cod_dane)).Nodup)
    (hts : ts.length > 0) :
    process_data_for_violent_cities df dv (some ts) =
      (sortValues (fun a b => decide (b.2 ≤ a.2))
        (groupbyCountDropNone
          (((df.filter (fun r => decide (r.manera_muerte = "Homicidio"))).filter
              (fun r => decide (r.cod_muerte ∈ ts))).map
            (muniKey dv)))).take 5 := by
  rw [process_data_for_violent_cities]
  simp only [if_pos hts]
  rw [leftMerge_div_eq _ dv hdiv, List.map_map]
  rfl

theorem lowest_mortality_eq (df : List MortalityRecord) (dv : List DivisionEntry)
    (hdiv : (dv.map (fun d => d.cod_dane)).Nodup) :
    process_data_for_lowest_mortality_cities df dv =
      (sortValues (fun a b => decide (a.2 ≤ b.2))
        ((groupbyCountDropNone (df.map (muniKey dv))).filter
          (fun p => decide (0 < p.2)))).take 10 := by
  rw [process_data_for_lowest_mortality_cities, leftMerge_div_eq df dv hdiv, List.map_map]
  rfl

theorem top_causes_eq (df : List MortalityRecord) (df_codes : List CauseCode)
    (hcodes : (df_codes.map (fun e => e.codigo_cie10)).Nodup) :
    process_data_for_top_causes df df_codes =
      ((sortValues (fun a b => decide (b.2 ≤ a.2))
        (groupbyCountDropNone (df.map (causeKey df_codes)))).take 10).map
          (fun p => ⟨p.1.1, p.1.2, p.2⟩) := by
  rw [process_data_for_top_causes, leftMerge_cause_eq df df_codes hcodes, List.map_map]
  rfl

theorem gender_department_eq (df : List MortalityRecord) (dv : List DivisionEntry)
    (hdiv : (dv.map (fun d => d.cod_dane)).Nodup) :
    process_data_for_gender_department df dv =
      groupbyCountDropNone (df.map (genderDeptKey dv)) := by
  rw [process_data_for_gender_department, leftMerge_div_eq df dv hdiv, List.map_map]
  rfl

/-! ### Range lemmas for the age bins -/

theorem findBin_eq_none_of_neg {x : Int} (tbl : List ((Int × Int) × String))
    (h : ∀ e ∈ tbl, 0 ≤ e.1.1) (hx : x < 0) : findBin x tbl = none := by
  induction tbl with
  | nil => rfl
  | cons e es ih =>
    rw [findBin, if_neg, ih (fun e' he' => h e' (by simp [he']))]
    rintro ⟨h1, _⟩
    have := h e (by simp)
    omega

theorem findBin_eq_none_of_ge {x : Int} (tbl : List ((Int × Int) × String))
    (h : ∀ e ∈ tbl, e.1.2 ≤ 150) (hx : 150 ≤ x) : findBin x tbl = none := by
  induction tbl with
  | nil => rfl
  | cons e es ih =>
    rw [findBin, if_neg, ih (fun e' he' => h e' (by simp [he']))]
    rintro ⟨_, h2⟩
    have := h e (by simp)
    omega

/-! ### The claims -/

/-- Claim C5: for every filter dimension (manner, month, gender, department,
cause-sub-type), an absent (`None`) or empty (`[]`) selection is a
pass-through — the filter step returns its input unchanged and raises no
error — and consequently every filter-change callback invoked with empty
selections returns exactly the aggregation of the unfiltered record set. -/
theorem C5_empty_selection_passthrough :
    (∀ df, mannerFilterStep none df = df ∧ mannerFilterStep (some []) df = df) ∧
    (∀ df, monthFilterStep none df = some df ∧ monthFilterStep (some []) df = some df) ∧
    (∀ df, genderFilterStep none df = some df ∧ genderFilterStep (some []) df = some df) ∧
    (∀ dv df, deptFilterStep none dv df = df ∧ deptFilterStep (some []) dv df = df) ∧
    (∀ df dv, process_data_for_violent_cities df dv (some []) =
        process_data_for_violent_cities df dv none) ∧
    (∀ df dv, update_map df dv none none none =
        some (process_data_for_department_map df dv)) ∧
    (∀ df dv, update_monthly_chart df dv none none =
        some (process_data_for_monthly_deaths df)) ∧
    (∀ df dv, update_age_histogram df dv none none =
        some (process_data_for_age_histogram df)) ∧
    (∀ df dv, update_violent_cities_chart df dv none none =
        some (process_data_for_violent_cities df dv none)) ∧
    (∀ df dv, update_lowest_mortality_chart df dv none =
        some (process_data_for_lowest_mortality_cities df dv)) ∧
    (∀ df dv, update_gender_dept_chart df dv none none =
        some (process_data_for_gender_department df dv)) := by
  refine ⟨fun df => ⟨rfl, rfl⟩, fun df => ⟨rfl, rfl⟩, fun df => ⟨rfl, rfl⟩,
    fun dv df => ⟨rfl, rfl⟩, fun df dv => rfl, fun df dv => rfl, fun df dv => rfl,
    fun df dv => rfl, fun df dv => rfl, fun df dv => rfl, fun df dv => rfl⟩

/-- Claim C4, amended: the cause-description translation of
`update_violent_cities_chart` never crashes, but a selection element lacking
the `" - "` separator is not dropped — `desc.split(' - ')[0]` returns the
whole string, so the malformed element contributes its entire text as a
"code" to the restriction set; well-formed elements contribute the prefix
before the first `" - "`.  The number of contributed codes always equals the
number of selected elements. -/
theorem C4_malformed_selection_kept :
    (∀ sel : List String, (extract_codes sel).length = sel.length) ∧
    (∀ df dv sel, (update_violent_cities_chart df dv (some sel) none).isSome) ∧
    extract_codes ["X95 - Agresion con disparo", "X99 - Agresion - espec", "SinSeparador"] =
      ["X95", "X99", "SinSeparador"] := by
  refine ⟨fun sel => by simp [extract_codes], fun df dv sel => rfl, by decide⟩

/-- Claim C4 counterexample: with the malformed selection
`["SinSeparador"]` the translation contributes the whole string (the claim
says it contributes nothing), and the difference is observable: the
restriction set becomes `{"SinSeparador"}`, which empties the violent-cities
aggregate, whereas the dropped-selection semantics the claim describes
(empty restriction set) would keep the homicide row. -/
theorem C4_counterexample :
    extract_codes ["SinSeparador"] = ["SinSeparador"] ∧
    process_data_for_violent_cities [recMCD "Homicidio" "X95" "D1"] divipolaB
      (some (extract_codes ["SinSeparador"])) = [] ∧
    process_data_for_violent_cities [recMCD "Homicidio" "X95" "D1"] divipolaB
      (some []) = [("M1", 1)] := by
  exact ⟨by decide, by decide, by decide⟩

set_option maxRecDepth 4000 in
/-- Claim C1, amended: `cutAge` realises the spec's binning rule except that
the terminal bucket labelled `"100+"` is the half-open interval `[100, 150)`
rather than `[100, ∞)`: values `< 0` or `≥ 150` (and missing values) are
excluded.  The scenario holds: ages `[2, 7, 23, 101]` give the buckets
`0-4`, `5-9`, `20-24` and `100+` one record each. -/
theorem C1_age_binning :
    (∀ v : Int, cutAge v = specAgeBucket v) ∧
    dictLookup (process_data_for_age_histogram
      [ageRec 2, ageRec 7, ageRec 23, ageRec 101]) "0-4" = some 1 ∧
    dictLookup (process_data_for_age_histogram
      [ageRec 2, ageRec 7, ageRec 23, ageRec 101]) "5-9" = some 1 ∧
    dictLookup (process_data_for_age_histogram
      [ageRec 2, ageRec 7, ageRec 23, ageRec 101]) "20-24" = some 1 ∧
    dictLookup (process_data_for_age_histogram
      [ageRec 2, ageRec 7, ageRec 23, ageRec 101]) "100+" = some 1 := by
  refine ⟨?_, by decide, by decide, by decide, by decide⟩
  intro v
  by_cases h0 : v < 0
  · rw [cutAge, findBin_eq_none_of_neg ageBinTable (by decide) h0, specAgeBucket]
    rw [if_neg (by omega), if_neg (by omega)]
  · by_cases h1 : 150 ≤ v
    · rw [cutAge, findBin_eq_none_of_ge ageBinTable (by decide) h1, specAgeBucket]
      rw [if_neg (by omega), if_neg (by omega)]
    · have hb : 0 ≤ v := by omega
      have hv : v.toNat < 150 := by omega
      have key : ∀ n : Fin 150, cutAge ((n : Nat) : Int) = specAgeBucket ((n : Nat) : Int) := by
        decide
      have := key ⟨v.toNat, hv⟩
      simpa [Int.toNat_of_nonneg hb] using this

/-- Claim C1 counterexample: the age value `150` satisfies `v ≥ 100` but is
counted in no bucket at all — the `"100+"` bin of the code is `[100, 150)`,
not `[100, ∞)` as the claim states, so the record is excluded. -/
theorem C1_counterexample :
    (100 : Int) ≤ 150 ∧ cutAge 150 = none ∧
    dictLookup (process_data_for_age_histogram [ageRec 150]) "100+" = some 0 := by
  exact ⟨by decide, by decide, by decide⟩

/-- Claim C7: with a duplicate-free Divipola table, the department map has
one row per department realised by some record (no duplicates), each row
counts exactly the records whose division code maps to that department, and
records with unmapped division codes contribute to no named department (they
match no `deptKey _ _ = some dept`).  Scenario A: divisions `D1`, `D2`
(department `X`) and unmapped `D3` yield exactly `[("X", 2)]`. -/
theorem C7_department_map (df : List MortalityRecord) (dv : List DivisionEntry)
    (hdiv : (dv.map (fun d => d.cod_dane)).Nodup) :
    ((process_data_for_department_map df dv).map Prod.fst).Nodup ∧
    (∀ dept n, (dept, n) ∈ process_data_for_department_map df dv →
        0 < n ∧ n = df.countP (fun r => decide (deptKey dv r = some dept))) ∧
    (∀ r ∈ df, ∀ dept, deptKey dv r = some dept →
        (dept, df.countP (fun r' => decide (deptKey dv r' = some dept)))
          ∈ process_data_for_department_map df dv) ∧
    process_data_for_department_map dfA divipolaA = [("X", 2)] := by
  rw [department_map_eq df dv hdiv]
  refine ⟨?_, ?_, ?_, by decide⟩
  · rw [groupbyCountDropNone]
    exact nodup_fst_groupbyCount _
  · intro dept n hmem
    have h := mem_groupbyCountDropNone_map hmem
    exact ⟨h.1, h.2.1⟩
  · intro r hr dept hk
    exact realised_mem_groupbyCountDropNone_map ⟨r, hr, hk⟩

/-- Witness for C7 at Scenario A's concrete data. -/
theorem C7_witness :
    ((divipolaA.map (fun d => d.cod_dane)).Nodup) ∧
    (((process_data_for_department_map dfA divipolaA).map Prod.fst).Nodup ∧
     (∀ dept n, (dept, n) ∈ process_data_for_department_map dfA divipolaA →
         0 < n ∧ n = dfA.countP (fun r => decide (deptKey divipolaA r = some dept))) ∧
     (∀ r ∈ dfA, ∀ dept, deptKey divipolaA r = some dept →
         (dept, dfA.countP (fun r' => decide (deptKey divipolaA r' = some dept)))
           ∈ process_data_for_department_map dfA divipolaA) ∧
     process_data_for_department_map dfA divipolaA = [("X", 2)]) :=
  ⟨by decide, C7_department_map dfA divipolaA (by decide)⟩

/-- Claim C8: when every record carries a month in `1..12`, the monthly
aggregation has at most 12 rows, the rows are sorted ascending by month
number (independently of input row order), and every row's month name is the
`MONTH_NAMES` entry of its month number (present for months `1..12`). -/
theorem C8_monthly_sorted (df : List MortalityRecord)
    (h : ∀ r ∈ df, 1 ≤ r.mes ∧ r.mes ≤ 12) :
    (process_data_for_monthly_deaths df).length ≤ 12 ∧
    (process_data_for_monthly_deaths df).Pairwise (fun a b => a.1 ≤ b.1) ∧
    (∀ row ∈ process_data_for_monthly_deaths df,
        row.2.2 = dictLookup MONTH_NAMES row.1 ∧ row.2.2.isSome) := by
  have hin : ∀ m : Nat, 1 ≤ m → m ≤ 12 → m ∈ [1, 2, 3, 4, 5, 6, 7, 8, 9, 10, 11, 12] := by
    intro m h1 h2
    interval_cases m <;> decide
  have hname : ∀ m : Nat, 1 ≤ m → m ≤ 12 → (dictLookup MONTH_NAMES m).isSome := by
    intro m h1 h2
    interval_cases m <;> decide
  refine ⟨?_, ?_, ?_⟩
  · have hlen : (process_data_for_monthly_deaths df).length =
        (df.map (fun r => r.mes)).dedup.length := by
      rw [monthly_deaths_eq, List.length_map, length_sortValues, length_groupbyCount]
    have hsub : (df.map (fun r => r.mes)).dedup ⊆ [1, 2, 3, 4, 5, 6, 7, 8, 9, 10, 11, 12] := by
      intro m hm
      rcases List.mem_map.mp (List.mem_dedup.mp hm) with ⟨r, hr, hrm⟩
      rcases h r hr with ⟨h1, h2⟩
      exact hin m (hrm ▸ h1) (hrm ▸ h2)
    have := ((List.nodup_dedup (df.map (fun r => r.mes))).subperm hsub).length_le
    rw [hlen]
    simpa using this
  · rw [monthly_deaths_eq, List.pairwise_map]
    have hs := @pairwise_sortValues (Nat × Nat) (fun a b => decide (a.1 ≤ b.1))
      (by intro a b c h1 h2; simp at h1 h2 ⊢; omega)
      (by intro a b; by_cases hab : a.1 ≤ b.1
          · left; simpa using hab
          · right; simp; omega)
      (groupbyCount (df.map (fun r => r.mes)))
    exact hs.imp (by intro a b hb; simpa using hb)
  · intro row hrow
    rw [monthly_deaths_eq] at hrow
    rcases List.mem_map.mp hrow with ⟨p, hp, hrw⟩
    rw [← hrw]
    refine ⟨rfl, ?_⟩
    have hpmem : (p.1, p.2) ∈ groupbyCount (df.map (fun r => r.mes)) :=
      mem_sortValues.mp hp
    have hk : p.1 ∈ df.map (fun r => r.mes) := (mem_groupbyCount.mp hpmem).1
    rcases List.mem_map.mp hk with ⟨r, hr, hmes⟩
    rcases h r hr with ⟨h1, h2⟩
    exact hname p.1 (hmes ▸ h1) (hmes ▸ h2)

/-- Witness for C8 at a concrete out-of-order record set. -/
theorem C8_witness :
    (∀ r ∈ dfM, 1 ≤ r.mes ∧ r.mes ≤ 12) ∧
    ((process_data_for_monthly_deaths dfM).length ≤ 12 ∧
     (process_data_for_monthly_deaths dfM).Pairwise (fun a b => a.1 ≤ b.1) ∧
     (∀ row ∈ process_data_for_monthly_deaths dfM,
         row.2.2 = dictLookup MONTH_NAMES row.1 ∧ row.2.2.isSome)) :=
  ⟨by decide, C8_monthly_sorted dfM (by decide)⟩

/-- Claim C6: with a duplicate-free Divipola table and a non-empty cause-code
restriction, the violent-cities aggregate has at most 5 rows, sorted
descending by count, and each row counts exactly the records whose manner of
death is the literal `"Homicidio"`, whose cause code is in the restriction
set, and whose division code maps to that municipality.  Scenario B yields
exactly one `M1` record. -/
theorem C6_violent_cities (df : List MortalityRecord) (dv : List DivisionEntry)
    (ts : List String) (hdiv : (dv.map (fun d => d.cod_dane)).Nodup)
    (hts : 0 < ts.length) :
    (process_data_for_violent_cities df dv (some ts)).length ≤ 5 ∧
    (process_data_for_violent_cities df dv (some ts)).Pairwise (fun a b => b.2 ≤ a.2) ∧
    (∀ city n, (city, n) ∈ process_data_for_violent_cities df dv (some ts) →
        0 < n ∧ n = df.countP (fun r => decide (r.manera_muerte = "Homicidio" ∧
          r.cod_muerte ∈ ts ∧ muniKey dv r = some city))) ∧
    process_data_for_violent_cities dfB divipolaB (some ["X95"]) = [("M1", 1)] := by
  rw [violent_cities_eq_some df dv ts hdiv hts]
  refine ⟨List.length_take_le .., ?_, ?_, by decide⟩
  · have hs := @pairwise_sortValues (String × Nat) (fun a b => decide (b.2 ≤ a.2))
      (by intro a b c h1 h2; simp at h1 h2 ⊢; omega)
      (by intro a b; by_cases hab : b.2 ≤ a.2
          · left; simpa using hab
          · right; simp; omega)
      (groupbyCountDropNone
        (((df.filter (fun r => decide (r.manera_muerte = "Homicidio"))).filter
            (fun r => decide (r.cod_muerte ∈ ts))).map (muniKey dv)))
    exact List.Pairwise.sublist (List.take_sublist ..)
      (hs.imp (by intro a b hb; simpa using hb))
  · intro city n hmem
    have h2 := mem_sortValues.mp (List.mem_of_mem_take hmem)
    have h3 := mem_groupbyCountDropNone_map h2
    refine ⟨h3.1, ?_⟩
    rw [h3.2.1, List.countP_filter, List.countP_filter]
    have hfun : (fun r : MortalityRecord =>
        (decide (muniKey dv r = some city) && decide (r.cod_muerte ∈ ts)) &&
          decide (r.manera_muerte = "Homicidio")) =
        (fun r : MortalityRecord => decide (r.manera_muerte = "Homicidio" ∧
          r.cod_muerte ∈ ts ∧ muniKey dv r = some city)) := by
      funext r
      by_cases hA : r.manera_muerte = "Homicidio" <;>
        by_cases hB : r.cod_muerte ∈ ts <;>
        by_cases hC : muniKey dv r = some city <;>
        simp [hA, hB, hC]
    rw [hfun]

/-- Witness for C6 at Scenario B's concrete data. -/
theorem C6_witness :
    ((divipolaB.map (fun d => d.cod_dane)).Nodup) ∧ 0 < (["X95"] : List String).length ∧
    ((process_data_for_violent_cities dfB divipolaB (some ["X95"])).length ≤ 5 ∧
     (process_data_for_violent_cities dfB divipolaB (some ["X95"])).Pairwise
       (fun a b => b.2 ≤ a.2) ∧
     (∀ city n, (city, n) ∈ process_data_for_violent_cities dfB divipolaB (some ["X95"]) →
         0 < n ∧ n = dfB.countP (fun r => decide (r.manera_muerte = "Homicidio" ∧
           r.cod_muerte ∈ ["X95"] ∧ muniKey divipolaB r = some city))) ∧
     process_data_for_violent_cities dfB divipolaB (some ["X95"]) = [("M1", 1)]) :=
  ⟨by decide, by decide, C6_violent_cities dfB divipolaB ["X95"] (by decide) (by decide)⟩

/-- Claim C3, amended: in `process_data_for_top_causes` a record whose cause
code has no entry in the cause table is NOT counted — grouping by the
(code, description) pair drops rows whose description is null (pandas
`groupby` discards NaN keys) — so every output row corresponds to a matched
code with its table description, counts exactly the records realising that
(code, description) key, and unmatched codes never appear.  The output is at
most 10 rows sorted descending by count, with the renamed display columns
(`Código`, `Descripción`, `Total de Casos`) modelled by the fields of
`TopCauseRow`. -/
theorem C3_top_causes_drop_unmatched (df : List MortalityRecord)
    (df_codes : List CauseCode)
    (hcodes : (df_codes.map (fun e => e.codigo_cie10)).Nodup) :
    (process_data_for_top_causes df df_codes).length ≤ 10 ∧
    (process_data_for_top_causes df df_codes).Pairwise
      (fun a b => b.total_de_casos ≤ a.total_de_casos) ∧
    (∀ row ∈ process_data_for_top_causes df df_codes,
        0 < row.total_de_casos ∧
        (∃ e ∈ df_codes, e.codigo_cie10 = row.codigo ∧ e.descripcion = row.descripcion) ∧
        row.total_de_casos = df.countP (fun r =>
          decide (causeKey df_codes r = some (row.codigo, row.descripcion)))) ∧
    (∀ r ∈ df, lookupCause df_codes r.cod_muerte = none →
        ∀ row ∈ process_data_for_top_causes df df_codes, row.codigo ≠ r.cod_muerte) := by
  rw [top_causes_eq df df_codes hcodes]
  have hchar : ∀ row ∈ ((sortValues (fun a b => decide (b.2 ≤ a.2))
      (groupbyCountDropNone (df.map (causeKey df_codes)))).take 10).map
        (fun p => (⟨p.1.1, p.1.2, p.2⟩ : TopCauseRow)),
      0 < row.total_de_casos ∧
      (∃ e ∈ df_codes, e.codigo_cie10 = row.codigo ∧ e.descripcion = row.descripcion) ∧
      row.total_de_casos = df.countP (fun r =>
        decide (causeKey df_codes r = some (row.codigo, row.descripcion))) := by
    intro row hrow
    rcases List.mem_map.mp hrow with ⟨p, hp, hrw⟩
    rw [← hrw]
    have h2 := mem_sortValues.mp (List.mem_of_mem_take hp)
    have h3 := mem_groupbyCountDropNone_map h2
    refine ⟨h3.1, ?_, h3.2.1⟩
    rcases h3.2.2 with ⟨r, _, hkey⟩
    rw [causeKey, Option.map_eq_some'] at hkey
    rcases hkey with ⟨e, hle, hpe⟩
    rcases lookupCause_some hle with ⟨hmem, hcode⟩
    refine ⟨e, hmem, ?_, ?_⟩
    · show e.codigo_cie10 = p.1.1
      rw [hcode, ← hpe]
    · show e.descripcion = p.1.2
      rw [← hpe]
  refine ⟨?_, ?_, hchar, ?_⟩
  · rw [List.length_map]
    exact List.length_take_le ..
  · rw [List.pairwise_map]
    have hs := @pairwise_sortValues ((String × String) × Nat) (fun a b => decide (b.2 ≤ a.2))
      (by intro a b c h1 h2; simp at h1 h2 ⊢; omega)
      (by intro a b; by_cases hab : b.2 ≤ a.2
          · left; simpa using hab
          · right; simp; omega)
      (groupbyCountDropNone (df.map (causeKey df_codes)))
    exact List.Pairwise.sublist (List.take_sublist ..)
      (hs.imp (by intro a b hb; simpa using hb))
  · intro r hr hnone row hrow heq
    rcases (hchar row hrow).2.1 with ⟨e, hmem, hcode, _⟩
    have : lookupCause df_codes r.cod_muerte ≠ none := by
      have h := lookupCause_ne_none hmem
      rw [hcode, heq] at h
      exact h
    exact this hnone

/-- Witness for C3 at a concrete record set whose codes all match. -/
theorem C3_witness :
    ((codesC.map (fun e => e.codigo_cie10)).Nodup) ∧
    ((process_data_for_top_causes dfC codesC).length ≤ 10 ∧
     (process_data_for_top_causes dfC codesC).Pairwise
       (fun a b => b.total_de_casos ≤ a.total_de_casos) ∧
     (∀ row ∈ process_data_for_top_causes dfC codesC,
         0 < row.total_de_casos ∧
         (∃ e ∈ codesC, e.codigo_cie10 = row.codigo ∧ e.descripcion = row.descripcion) ∧
         row.total_de_casos = dfC.countP (fun r =>
           decide (causeKey codesC r = some (row.codigo, row.descripcion)))) ∧
     (∀ r ∈ dfC, lookupCause codesC r.cod_muerte = none →
         ∀ row ∈ process_data_for_top_causes dfC codesC, row.codigo ≠ r.cod_muerte)) :=
  ⟨by decide, C3_top_causes_drop_unmatched dfC codesC (by decide)⟩

/-- Claim C3 counterexample: a record whose cause code `"Z999"` has no entry
in the cause table is dropped entirely — the grouped output is empty, so the
record is not "still counted under its raw code with a null description" as
the claim states. -/
theorem C3_counterexample :
    lookupCause codesC "Z999" = none ∧
    process_data_for_top_causes [recMCD "Homicidio" "Z999" "D1"] codesC = [] := by
  exact ⟨by decide, by decide⟩

/-- Claim C2, amended: for the department-map, monthly, violent-cities,
lowest-mortality, top-causes and gender-by-department pipelines the output
row count never exceeds the number of distinct non-null values the grouping
column takes on the (filtered) input, and every output row carries a
positive count for a realised key.  The age histogram is the exception the
claim misses: its grouping column is categorical and pandas (`observed=False`
default) emits one row for every fixed bucket label — always exactly 21
rows, zero-count buckets included. -/
theorem C2_rowcount_bound (df : List MortalityRecord) (dv : List DivisionEntry)
    (df_codes : List CauseCode)
    (hdiv : (dv.map (fun d => d.cod_dane)).Nodup)
    (hcodes : (df_codes.map (fun e => e.codigo_cie10)).Nodup) :
    ((process_data_for_department_map df dv).length ≤
        ((df.map (deptKey dv)).filterMap id).dedup.length) ∧
    (∀ p ∈ process_data_for_department_map df dv, 0 < p.2) ∧
    ((process_data_for_monthly_deaths df).length ≤ (df.map (fun r => r.mes)).dedup.length) ∧
    (∀ row ∈ process_data_for_monthly_deaths df,
        0 < row.2.1 ∧ row.1 ∈ df.map (fun r => r.mes)) ∧
    ((process_data_for_violent_cities df dv none).length ≤
        (((df.filter (fun r => decide (r.manera_muerte = "Homicidio"))).map
            (muniKey dv)).filterMap id).dedup.length) ∧
    (∀ p ∈ process_data_for_violent_cities df dv none, 0 < p.2) ∧
    ((process_data_for_lowest_mortality_cities df dv).length ≤
        ((df.map (muniKey dv)).filterMap id).dedup.length) ∧
    (∀ p ∈ process_data_for_lowest_mortality_cities df dv, 0 < p.2) ∧
    ((process_data_for_top_causes df df_codes).length ≤
        ((df.map (causeKey df_codes)).filterMap id).dedup.length) ∧
    (∀ row ∈ process_data_for_top_causes df df_codes, 0 < row.total_de_casos) ∧
    ((process_data_for_gender_department df dv).length ≤
        ((df.map (genderDeptKey dv)).filterMap id).dedup.length) ∧
    (∀ p ∈ process_data_for_gender_department df dv, 0 < p.2) ∧
    ((process_data_for_age_histogram df).length = age_labels.length) := by
  have htake : ∀ {γ : Type} (le : γ → γ → Bool) (l : List γ) (n : Nat),
      ((sortValues le l).take n).length ≤ l.length := by
    intro γ le l n
    rw [List.length_take, length_sortValues]
    exact Nat.min_le_right ..
  refine ⟨?_, ?_, ?_, ?_, ?_, ?_, ?_, ?_, ?_, ?_, ?_, ?_, ?_⟩
  · rw [department_map_eq df dv hdiv, length_groupbyCountDropNone]
  · intro p hp
    rw [department_map_eq df dv hdiv] at hp
    exact (mem_groupbyCountDropNone_map (show (p.1, p.2) ∈ _ from hp)).1
  · rw [monthly_deaths_eq, List.length_map, length_sortValues, length_groupbyCount]
  · intro row hrow
    rw [monthly_deaths_eq] at hrow
    rcases List.mem_map.mp hrow with ⟨p, hp, hrw⟩
    have hpm := mem_groupbyCount.mp (show (p.1, p.2) ∈ _ from mem_sortValues.mp hp)
    rw [← hrw]
    refine ⟨?_, hpm.1⟩
    show 0 < p.2
    rw [hpm.2]
    exact countKey_pos hpm.1
  · rw [violent_cities_eq_none df dv hdiv]
    refine le_trans (htake _ _ 5) ?_
    rw [length_groupbyCountDropNone]
  · intro p hp
    rw [violent_cities_eq_none df dv hdiv] at hp
    have h2 := mem_sortValues.mp (List.mem_of_mem_take hp)
    exact (mem_groupbyCountDropNone_map (show (p.1, p.2) ∈ _ from h2)).1
  · rw [lowest_mortality_eq df dv hdiv]
    refine le_trans (htake _ _ 10) ?_
    refine le_trans (List.length_filter_le _ _) ?_
    rw [length_groupbyCountDropNone]
  · intro p hp
    rw [lowest_mortality_eq df dv hdiv] at hp
    have h2 := mem_sortValues.mp (List.mem_of_mem_take hp)
    have h3 := List.mem_filter.mp h2
    simpa using h3.2
  · rw [top_causes_eq df df_codes hcodes, List.length_map]
    refine le_trans (htake _ _ 10) ?_
    rw [length_groupbyCountDropNone]
  · intro row hrow
    rw [top_causes_eq df df_codes hcodes] at hrow
    rcases List.mem_map.mp hrow with ⟨p, hp, hrw⟩
    have h2 := mem_sortValues.mp (List.mem_of_mem_take hp)
    have h3 := mem_groupbyCountDropNone_map (show (p.1, p.2) ∈ _ from h2)
    rw [← hrw]
    exact h3.1
  · rw [gender_department_eq df dv hdiv, length_groupbyCountDropNone]
  · intro p hp
    rw [gender_department_eq df dv hdiv] at hp
    exact (mem_groupbyCountDropNone_map (show (p.1, p.2) ∈ _ from hp)).1
  · simp [process_data_for_age_histogram]

/-- Witness for C2 at concrete tables. -/
theorem C2_witness :
    ((divipolaA.map (fun d => d.cod_dane)).Nodup) ∧
    ((codesC.map (fun e => e.codigo_cie10)).Nodup) ∧
    (((process_data_for_department_map dfC divipolaA).length ≤
        ((dfC.map (deptKey divipolaA)).filterMap id).dedup.length) ∧
     (∀ p ∈ process_data_for_department_map dfC divipolaA, 0 < p.2) ∧
     ((process_data_for_monthly_deaths dfC).length ≤
        (dfC.map (fun r => r.mes)).dedup.length) ∧
     (∀ row ∈ process_data_for_monthly_deaths dfC,
         0 < row.2.1 ∧ row.1 ∈ dfC.map (fun r => r.mes)) ∧
     ((process_data_for_violent_cities dfC divipolaA none).length ≤
        (((dfC.filter (fun r => decide (r.manera_muerte = "Homicidio"))).map
            (muniKey divipolaA)).filterMap id).dedup.length) ∧
     (∀ p ∈ process_data_for_violent_cities dfC divipolaA none, 0 < p.2) ∧
     ((process_data_for_lowest_mortality_cities dfC divipolaA).length ≤
        ((dfC.map (muniKey divipolaA)).filterMap id).dedup.length) ∧
     (∀ p ∈ process_data_for_lowest_mortality_cities dfC divipolaA, 0 < p.2) ∧
     ((process_data_for_top_causes dfC codesC).length ≤
        ((dfC.map (causeKey codesC)).filterMap id).dedup.length) ∧
     (∀ row ∈ process_data_for_top_causes dfC codesC, 0 < row.total_de_casos) ∧
     ((process_data_for_gender_department dfC divipolaA).length ≤
        ((dfC.map (genderDeptKey divipolaA)).filterMap id).dedup.length) ∧
     (∀ p ∈ process_data_for_gender_department dfC divipolaA, 0 < p.2) ∧
     ((process_data_for_age_histogram dfC).length = age_labels.length)) :=
  ⟨by decide, by decide, C2_rowcount_bound dfC divipolaA codesC (by decide) (by decide)⟩

/-- Claim C2 counterexample: one record with age 2 makes the age-histogram
grouping column take a single distinct non-null value, yet the output has
21 rows — the categorical groupby emits every fixed bucket, so the claimed
bound fails for the age-histogram pipeline. -/
theorem C2_counterexample :
    (process_data_for_age_histogram [ageRec 2]).length = 21 ∧
    (([ageRec 2].map ageGroupOf).filterMap id).dedup.length = 1 ∧
    ¬ ((process_data_for_age_histogram [ageRec 2]).length ≤
        (([ageRec 2].map ageGroupOf).filterMap id).dedup.length) := by
  exact ⟨by decide, by decide, by decide⟩

/-- Claim C9: translating a list of display labels that all occur in the
month (resp. gender) table through the inverted dict succeeds, and mapping
the resulting codes back through the original table recovers exactly the
original labels; in particular `["Masculino"]` resolves to the sex-code list
`[1]` only. -/
theorem C9_label_roundtrip :
    (∀ sel : List String, (∀ l ∈ sel, l ∈ MONTH_NAMES.map Prod.snd) →
        ∃ codes, translateMonths sel = some codes ∧
          codes.map (dictLookup MONTH_NAMES) = sel.map some) ∧
    (∀ sel : List String, (∀ l ∈ sel, l ∈ gender_mapping.map Prod.snd) →
        ∃ codes, translateGenders sel = some codes ∧
          codes.map (dictLookup gender_mapping) = sel.map some) ∧
    translateGenders ["Masculino"] = some [1] := by
  have hM : ∀ l ∈ MONTH_NAMES.map Prod.snd,
      (dictLookup month_to_num l).bind (fun k => dictLookup MONTH_NAMES k) = some l := by
    decide
  have hG : ∀ l ∈ gender_mapping.map Prod.snd,
      (dictLookup gender_to_code l).bind (fun k => dictLookup gender_mapping k) = some l := by
    decide
  refine ⟨?_, ?_, by decide⟩
  · intro sel hsel
    apply mapKeyErr_roundtrip
    intro a ha
    exact Option.bind_eq_some.mp (hM a (hsel a ha))
  · intro sel hsel
    apply mapKeyErr_roundtrip
    intro a ha
    exact Option.bind_eq_some.mp (hG a (hsel a ha))

/-- Claim C10: the month and gender translations are total exactly on labels
drawn from the fixed tables — every selection within the table values
translates successfully (and `update_map` completes), while a selection
containing any label outside the table makes the inverted-dict subscript
raise `KeyError`, failing the whole translation and the whole callback. -/
theorem C10_translation_totality :
    (∀ sel : List String, (∀ l ∈ sel, l ∈ MONTH_NAMES.map Prod.snd) →
        (translateMonths sel).isSome) ∧
    (∀ sel : List String, ∀ l ∈ sel, l ∉ MONTH_NAMES.map Prod.snd →
        translateMonths sel = none) ∧
    (∀ sel : List String, (∀ l ∈ sel, l ∈ gender_mapping.map Prod.snd) →
        (translateGenders sel).isSome) ∧
    (∀ sel : List String, ∀ l ∈ sel, l ∉ gender_mapping.map Prod.snd →
        translateGenders sel = none) ∧
    (∀ df dv sel, (∀ l ∈ sel, l ∈ MONTH_NAMES.map Prod.snd) →
        (update_map df dv none (some sel) none).isSome) ∧
    (∀ df dv sel l, l ∈ sel → l ∉ MONTH_NAMES.map Prod.snd →
        update_map df dv none (some sel) none = none) := by
  have hMs : ∀ l ∈ MONTH_NAMES.map Prod.snd, (dictLookup month_to_num l).isSome := by decide
  have hGs : ∀ l ∈ gender_mapping.map Prod.snd, (dictLookup gender_to_code l).isSome := by
    decide
  have hMkeys : month_to_num.map Prod.fst = MONTH_NAMES.map Prod.snd := by decide
  have hGkeys : gender_to_code.map Prod.fst = gender_mapping.map Prod.snd := by decide
  have hMnone : ∀ l, l ∉ MONTH_NAMES.map Prod.snd → dictLookup month_to_num l = none := by
    intro l hl
    apply dictLookup_eq_none
    rw [hMkeys]
    exact hl
  have hGnone : ∀ l, l ∉ gender_mapping.map Prod.snd → dictLookup gender_to_code l = none := by
    intro l hl
    apply dictLookup_eq_none
    rw [hGkeys]
    exact hl
  refine ⟨?_, ?_, ?_, ?_, ?_, ?_⟩
  · intro sel hsel
    exact mapKeyErr_isSome (fun a ha => hMs a (hsel a ha))
  · intro sel l hl hnot
    exact mapKeyErr_eq_none_of_mem hl (hMnone l hnot)
  · intro sel hsel
    exact mapKeyErr_isSome (fun a ha => hGs a (hsel a ha))
  · intro sel l hl hnot
    exact mapKeyErr_eq_none_of_mem hl (hGnone l hnot)
  · intro df dv sel hsel
    rcases Option.isSome_iff_exists.mp
      (mapKeyErr_isSome (fun a ha => hMs a (hsel a ha))) with ⟨nums, hnums⟩
    by_cases hlen : sel.length > 0
    · simp [update_map, mannerFilterStep, monthFilterStep, genderFilterStep, hlen,
        translateMonths, hnums]
    · simp [update_map, mannerFilterStep, monthFilterStep, genderFilterStep, hlen]
  · intro df dv sel l hl hnot
    have hlen : sel.length > 0 := List.length_pos.mpr (List.ne_nil_of_mem hl)
    have hnone : translateMonths sel = none :=
      mapKeyErr_eq_none_of_mem hl (hMnone l hnot)
    simp [update_map, mannerFilterStep, monthFilterStep, hlen, hnone]

end Mortality
